import Mathlib

/-!
# Cosmiframe — verification of the message-based RPC core

Shallow embedding of the cosmiframe request/response bridge:

* the Origin Guard (origin allow-list checks),
* the iframe-side `Cosmiframe` constructor (`src/client.ts`, current revision),
* the Request Correlator (`callParentMethod` in `src/utils.ts`; both the
  revision present in the source tree and the current revision, the latter
  modelled from the spec since its definition is absent from the tree),
* the parent-side Method Dispatcher (`Cosmiframe.listen`, current revision),
* the override processing helper (`processOverrideHandler` in `src/utils.ts`).

JavaScript values that the core treats as opaque (method parameters, handler
results) are modelled by a small inductive `Value`; windows are identified by
natural numbers; exceptions are modelled with `Except String`.
-/

namespace Cosmiframe

/-- Opaque JSON-serializable values crossing the boundary. The core never
inspects them, so a small closed universe suffices. `undef` models the
JavaScript `undefined` value. -/
inductive Value where
  | undef
  | null
  | bool (b : Bool)
  | num (n : Int)
  | str (s : String)
  deriving DecidableEq, Repr

/-- An allowed-origin specification (`Origin = string | RegExp` in
`src/types.ts`): either an exact string or a pattern matcher, the latter
modelled by its match function (`RegExp.test`). -/
inductive Origin where
  | str (s : String)
  | pattern (test : String → Bool)

/-- Modelled from the spec: the Origin Guard's acceptance predicate
(`isOriginAllowed` is imported by `src/client.ts` from `./utils` but its
definition is absent from the source tree). Returns true iff the allow-list
contains the allow-all entry `"*"`, or the candidate equals one of the exact
string entries, or the candidate matches one of the pattern entries. -/
def isOriginAllowed (allowedOrigins : List Origin) (origin : String) : Bool :=
  allowedOrigins.any fun allowed =>
    match allowed with
    | .str s => s == "*" || s == origin
    | .pattern test => test origin

/-- Modelled from the spec: the dedicated, distinctly-named allow-all sentinel
(`UNSAFE_ALLOW_ANY_ORIGIN`, imported by `src/client.ts` from `./utils` but
absent from the source tree). Its exact spelling is immaterial to the proofs;
what matters is that it is a string distinct from the wildcard `"*"`. -/
def UNSAFE_ALLOW_ANY_ORIGIN : String := "UNSAFE_ALLOW_ANY_ORIGIN"

/-- `list.includes('*')` on an `Origin[]`: strict equality with the literal
wildcard string, so only exact-string entries can match. -/
def hasStarString (l : List Origin) : Bool :=
  l.any fun o =>
    match o with
    | .str s => s == "*"
    | .pattern _ => false

/-- `list.includes(UNSAFE_ALLOW_ANY_ORIGIN)` on an `Origin[]`. -/
def hasSentinel (l : List Origin) : Bool :=
  l.any fun o =>
    match o with
    | .str s => s == UNSAFE_ALLOW_ANY_ORIGIN
    | .pattern _ => false

/-- The iframe-side `Cosmiframe` constructor (`src/client.ts`, current
revision): validates the allowed parent origins and computes the stored
`#allowedOrigins` field. Throwing is modelled by `Except.error` carrying the
thrown message. -/
def cosmiframeInit (allowedParentOrigins : List Origin) :
    Except String (List Origin) :=
  if allowedParentOrigins.isEmpty then
    .error "You must explicitly allow parent origins."
  else if hasStarString allowedParentOrigins then
    .error "It is very unsafe to allow all origins because a controlling app has the power to manipulate messages before they are signed. If you really want to do this, pass in `UNSAFE_ALLOW_ANY_ORIGIN`."
  else if hasSentinel allowedParentOrigins then
    .ok [.str "*"]
  else
    .ok allowedParentOrigins

/-- The two signer kinds (`SignerType = 'amino' | 'direct'` in
`src/types.ts`). -/
inductive SignerType where
  | amino
  | direct
  deriving DecidableEq, Repr

/-- String rendering of a signer kind as it appears interpolated in error
messages. -/
def SignerType.toStr : SignerType → String
  | .amino => "amino"
  | .direct => "direct"

/-- A property of the `target` object (or of a signer object): either an
invocable function or a non-function value. Invocation may throw, modelled by
`Except String`. -/
inductive TargetEntry where
  | fn (f : List Value → Except String Value)
  | value (v : Value)

/-- An override handler decision (`OverrideHandler` in `src/types.ts`): the
error variant (with optional message), the success variant (with a value,
possibly `undefined`), or the call-through variant. The whole handler being
`undefined`/`void` is modelled by `Option` at use sites. -/
inductive OverrideHandler where
  | error (e : Option String)
  | success (value : Value)
  | call

/-- A response payload without its id (`MethodCallResultMessageNoId` in
`src/types.ts`). -/
inductive ResultMsgNoId where
  | success (response : Value)
  | error (error : String)
  deriving DecidableEq, Repr

/-- `processOverrideHandler` from `src/utils.ts`: converts an override handler
into a result message; returns `none` exactly for the call-through variant.
A falsy `error` field (absent or the empty string) yields the fixed default
phrase, following `(handler && handler.type === 'error' && handler.error) ||
'Handled by outer wallet.'`. -/
def processOverrideHandler : Option OverrideHandler → Option ResultMsgNoId
  | none => some (.error "Handled by outer wallet.")
  | some (.error e) =>
    some (.error (match e with
      | some s => if s == "" then "Handled by outer wallet." else s
      | none => "Handled by outer wallet."))
  | some (.success v) => some (.success v)
  | some .call => none

/-- An override mapping (`Overrides` in `src/types.ts`): a method name maps to
an optional handler function taking the original parameters; the function may
itself throw and may return `undefined`. -/
def Overrides : Type :=
  String → Option (List Value → Except String (Option OverrideHandler))

/-- The inbound request payload as an object with optional fields
(`RequestMethodCallMessage` in `src/types.ts`; `Option` models field
absence, and `internal` is its truthiness). -/
structure MessageData where
  id : Option String
  method : Option String
  params : Option (List Value)
  chainId : Option String
  signerType : Option SignerType
  signType : Option SignerType
  internal : Bool

/-- The raw `data` of a boundary message event: either not an object (e.g. a
string) or an object payload. -/
inductive InData where
  | nonObject
  | object (d : MessageData)

/-- The options given to `Cosmiframe.listen` (`ListenOptions` in
`src/types.ts`), with windows as natural-number identifiers; the injected
signer providers may throw; `metadata` is the optional parent metadata value
returned by the internal metadata handler. -/
structure ListenOpts where
  contentWindow : Option Nat
  target : String → Option TargetEntry
  getOfflineSignerDirect : String → Except String (String → Option TargetEntry)
  getOfflineSignerAmino : String → Except String (String → Option TargetEntry)
  nonSignerOverrides : Option Overrides
  signerOverrides : Option (String → Overrides)
  origins : Option (List Origin)
  metadata : Option Value

/-- `const origins = _origins?.length ? _origins : ['*']` in
`Cosmiframe.listen`: an undefined or empty `origins` option defaults to the
single wildcard entry. -/
def effectiveOrigins : Option (List Origin) → List Origin
  | none => [.str "*"]
  | some l => if l.isEmpty then [.str "*"] else l

/-- `method.replace(/^signer:/, '')`: strips one leading occurrence of the
legacy `signer:` prefix (the regex is anchored, so at most one occurrence, at
the start, is removed). Stated over the character lists underlying the
strings; `"signer:"` is seven characters long. -/
def stripSignerTag (m : String) : String :=
  if "signer:".data.isPrefixOf m.data then String.mk (m.data.drop 7) else m

/-- `signerType ||= signType`: the deprecated alias is used only when the
canonical field is absent (both possible values are truthy strings). -/
def effectiveSignerType (d : MessageData) : Option SignerType :=
  d.signerType <|> d.signType

/-- The internal-method table of `Cosmiframe.listen`: `isCosmiframe` returns
`true`, `getMetadata` returns `metadata || null`, and any other method throws
`Unknown internal method: ...`. -/
def invokeInternal (metadata : Option Value) (method : String) :
    Except String ResultMsgNoId :=
  if method == "isCosmiframe" then
    .ok (.success (.bool true))
  else if method == "getMetadata" then
    .ok (.success (metadata.getD .null))
  else
    .error ("Unknown internal method: " ++ method)

/-- The override-then-fallthrough step shared by the signer and generic
branches of `Cosmiframe.listen`: if an override exists for the method, run it
(a throw propagates) and process its decision; when the decision does not
produce a message (call-through), or no override matches, run the fallback
resolution. -/
def dispatchWithOverride (overrides : Option Overrides) (method : String)
    (params : List Value) (fallback : Except String ResultMsgNoId) :
    Except String ResultMsgNoId := do
  let handled : Option ResultMsgNoId ←
    match overrides with
    | some ov =>
      match ov method with
      | some f => do
        let h ← f params
        pure (processOverrideHandler h)
      | none => pure none
    | none => pure none
  match handled with
  | some m => pure m
  | none => fallback

/-- The generic fallback of `Cosmiframe.listen`: require the method to exist
and be invocable on the target, else throw `No method '...' on target.`;
invoke it with the original parameters. -/
def invokeTarget (target : String → Option TargetEntry) (method : String)
    (params : List Value) : Except String ResultMsgNoId :=
  match target method with
  | some (.fn f) => do
    let v ← f params
    pure (.success v)
  | _ => .error ("No method '" ++ method ++ "' on target.")

/-- The signer fallback of `Cosmiframe.listen`: require the method to exist
and be invocable on the resolved signer, else throw
`No {kind} signer method '...' for chain ID '...'.`. -/
def invokeSigner (signer : String → Option TargetEntry) (st : SignerType)
    (chainId method : String) (params : List Value) :
    Except String ResultMsgNoId :=
  match signer method with
  | some (.fn f) => do
    let v ← f params
    pure (.success v)
  | _ =>
    .error ("No " ++ st.toStr ++ " signer method '" ++ method ++
      "' for chain ID '" ++ chainId ++ "'.")

/-- The `try` body of the `Cosmiframe.listen` handler, after destructuring and
normalization: internal, signer-scoped, or generic classification followed by
override consultation and concrete resolution. A `!chainId` check treats both
an absent and an empty chain id as missing. -/
def tryBody (opts : ListenOpts) (internal : Bool)
    (signerType : Option SignerType) (chainId : Option String)
    (method : String) (params : List Value) : Except String ResultMsgNoId :=
  if internal then
    invokeInternal opts.metadata method
  else
    match signerType with
    | some st =>
      match chainId with
      | none => .error "Missing chainId in signer message request"
      | some c =>
        if c == "" then
          .error "Missing chainId in signer message request"
        else
          dispatchWithOverride (opts.signerOverrides.map (· c)) method params
            (do
              let signer ←
                match st with
                | .direct => opts.getOfflineSignerDirect c
                | .amino => opts.getOfflineSignerAmino c
              invokeSigner signer st c method params)
    | none =>
      dispatchWithOverride opts.nonSignerOverrides method params
        (invokeTarget opts.target method params)

/-- The `catch` clause of the `Cosmiframe.listen` handler: a thrown error is
converted into an error payload carrying its message. -/
def runCatch : Except String ResultMsgNoId → ResultMsgNoId
  | .ok m => m
  | .error e => .error e

/-- The outcome of one run of the `Cosmiframe.listen` message handler:
it throws (iframe content window missing), silently ignores the message, or
posts exactly one response message (with `id` and payload) to `targetOrigin`. -/
inductive ListenOutcome where
  | threw (msg : String)
  | ignored
  | responded (id : String) (msg : ResultMsgNoId) (targetOrigin : String)
  deriving DecidableEq, Repr

/-- The `Cosmiframe.listen` message handler (current revision,
`src/client.ts`): verifies the iframe content window exists (else throws),
drops messages whose source is not the iframe content window, whose origin the
Origin Guard rejects, or which lack any of `id`/`method`/`params`; otherwise
normalizes, dispatches the `try` body, converts any thrown error into an error
payload, and posts the response with the original id back to the validated
origin. -/
def handleMessage (opts : ListenOpts) (source : Nat) (origin : String)
    (data : InData) : ListenOutcome :=
  match opts.contentWindow with
  | none => .threw "Iframe contentWindow does not exist."
  | some cw =>
    if source ≠ cw then .ignored
    else if ¬ isOriginAllowed (effectiveOrigins opts.origins) origin then
      .ignored
    else
      match data with
      | .nonObject => .ignored
      | .object d =>
        match d.id, d.method, d.params with
        | some id, some method0, some params =>
          let method := stripSignerTag method0
          let msg :=
            runCatch (tryBody opts d.internal (effectiveSignerType d)
              d.chainId method params)
          .responded id msg origin
        | _, _, _ => .ignored

/-- The shape check of the `Cosmiframe.listen` handler (`src/client.ts`,
current revision): the message is malformed when `data` is not an object or
lacks any of the `id`, `method`, `params` fields. -/
def badShape : InData → Bool
  | .nonObject => true
  | .object d => d.id.isNone || d.method.isNone || d.params.isNone

/-- `!(method in obj) || typeof obj[method] !== 'function'`, negated: whether
a looked-up property exists and is an invocable function. -/
def isInvocable : Option TargetEntry → Bool
  | some (.fn _) => true
  | _ => false

/-! ## The Request Correlator

`callParentMethod` registers a one-time boundary-message observer for a fresh
correlation id, sends the request, and settles the returned promise from the
first accepted response. We model the observer's lifetime and the pending
call's settlement as a small state machine driven by the sequence of incoming
boundary messages. -/

/-- The fields of a boundary response message's `data` as read by the
correlator's observer: correlation id, outcome tag (`'success'` or not),
success value, and error string. -/
structure ResultData where
  id : String
  type : String
  response : Value
  error : String

/-- Settlement state of a pending call in the revision of `callParentMethod`
present in `src/utils.ts` (which resolves with the bare value). -/
inductive OldCallState where
  | pending
  | resolved (result : Value)
  | rejected (msg : String)
  deriving DecidableEq, Repr

/-- A pending call of the `src/utils.ts` revision of `callParentMethod`:
whether its observer is still registered, and its settlement state. -/
structure OldCallMachine where
  listening : Bool
  state : OldCallState
  deriving DecidableEq, Repr

/-- How the `src/utils.ts` observer settles the call from an accepted
response: `data.type === 'success'` resolves with `data.response`, anything
else rejects with `new Error(data.error)`. -/
def oldSettle (m : ResultData) : OldCallState :=
  if m.type == "success" then .resolved m.response else .rejected m.error

/-- One incoming boundary message observed by the `src/utils.ts` revision of
`callParentMethod` (lines 21–37): a deregistered observer sees nothing; a
message whose id differs from the call's correlation id is ignored; on the
first id match the observer deregisters itself and then settles the call. -/
def oldStep (id : String) (st : OldCallMachine) (m : ResultData) :
    OldCallMachine :=
  if st.listening then
    if m.id ≠ id then st
    else { listening := false, state := oldSettle m }
  else st

/-- A pending call of the `src/utils.ts` `callParentMethod` processing a whole
sequence of incoming boundary messages, starting registered and pending. -/
def oldRun (id : String) (ms : List ResultData) : OldCallMachine :=
  ms.foldl (oldStep id) { listening := true, state := .pending }

/-- A boundary message event as seen by the current correlator observer:
source window, origin, and response payload. -/
structure InboundMsg where
  source : Nat
  origin : String
  data : ResultData

/-- Modelled from the spec: the acceptance predicate of the observer
registered by the current revision of `callParentMethod` (imported by
`src/client.ts` from `./utils` with an allowed-origins argument, but absent
from the source tree). A message is accepted only when its correlation id
matches the call's id, its source is the parent window (the expected
counterpart context), and its origin is in the allow-list. -/
def listenerAccepts (id : String) (allowedOrigins : List Origin)
    (parentWindow : Nat) (m : InboundMsg) : Bool :=
  m.data.id == id && m.source == parentWindow
    && isOriginAllowed allowedOrigins m.origin

/-- Settlement state of a pending call in the current revision of
`callParentMethod`: a success response resolves with the value together with
the observed origin (`CalledParentMethodResult`). -/
inductive NewCallState where
  | pending
  | resolved (result : Value) (origin : String)
  | rejected (msg : String)
  deriving DecidableEq, Repr

/-- A pending call of the current revision of `callParentMethod`. -/
structure NewCallMachine where
  listening : Bool
  state : NewCallState
  deriving DecidableEq, Repr

/-- Modelled from the spec: how the current observer settles an accepted
response — success resolves with the response value and the observed origin,
error rejects with the response's error string. -/
def newSettle (m : InboundMsg) : NewCallState :=
  if m.data.type == "success" then .resolved m.data.response m.origin
  else .rejected m.data.error

/-- Modelled from the spec: one incoming boundary message observed by the
current revision of `callParentMethod` — a non-accepted message changes
nothing; an accepted one deregisters the observer and settles the call. -/
def newStep (id : String) (allowedOrigins : List Origin) (parentWindow : Nat)
    (st : NewCallMachine) (m : InboundMsg) : NewCallMachine :=
  if st.listening then
    if listenerAccepts id allowedOrigins parentWindow m then
      { listening := false, state := newSettle m }
    else st
  else st

/-- Modelled from the spec: the send phase of `callParentMethod` — the
observer is registered and the request posted; a transmission failure at send
time removes the observer and immediately rejects the call. -/
def sendPhase (sendResult : Except String Unit) : NewCallMachine :=
  match sendResult with
  | .ok _ => { listening := true, state := .pending }
  | .error e => { listening := false, state := .rejected e }

/-! ## Concrete sample configurations

Small closed instances of the model, used to evaluate the definitions on
concrete inputs. -/

/-- A sample target object exposing exactly one invocable method, whose name
itself carries the legacy `signer:` tag. -/
def exTarget : String → Option TargetEntry := fun m =>
  if m == "signer:a" then some (.fn fun _ => .ok (.bool true)) else none

/-- Sample listen options: iframe content window `0`, the sample target, no
overrides, no origins restriction, no metadata, signer providers that throw. -/
def exOpts : ListenOpts where
  contentWindow := some 0
  target := exTarget
  getOfflineSignerDirect := fun _ => .error "no direct signer"
  getOfflineSignerAmino := fun _ => .error "no amino signer"
  nonSignerOverrides := none
  signerOverrides := none
  origins := none
  metadata := none

/-- A sample override handler function that returns the error variant with
message `boom`. -/
def exFooHandler : List Value → Except String (Option OverrideHandler) :=
  fun _ => .ok (some (.error (some "boom")))

/-- A sample override mapping configuring `exFooHandler` for method `foo`. -/
def exOverrides : Overrides := fun m =>
  if m == "foo" then some exFooHandler else none

/-- The sample listen options extended with the sample non-signer override. -/
def exOptsOv : ListenOpts :=
  { exOpts with nonSignerOverrides := some exOverrides }

/-- A well-formed generic request payload with id `i`, the given method name,
and empty parameters. -/
def mkReq (m : String) : MessageData where
  id := some "i"
  method := some m
  params := some []
  chainId := none
  signerType := none
  signType := none
  internal := false

/-- A response payload whose correlation id does not match `i`. -/
def exM0 : ResultData := { id := "other", type := "success", response := .num 1, error := "" }

/-- A success response payload for correlation id `i` with value `v`. -/
def exM1 : ResultData := { id := "i", type := "success", response := .str "v", error := "" }

/-- A late error response payload reusing correlation id `i`. -/
def exM2 : ResultData := { id := "i", type := "error", response := .undef, error := "late" }

/-- A boundary message carrying a response for id `i` from an allowed origin
but from window `1`, not the parent window `0`. -/
def exWrongSourceMsg : InboundMsg :=
  { source := 1, origin := "https://p.example", data := exM1 }

/-- A boundary message carrying a success response for id `i` from the parent
window `0` and an allowed origin. -/
def exGoodMsg : InboundMsg :=
  { source := 0, origin := "https://p.example", data := exM1 }

/-! ## Helper lemmas -/

/-- A deregistered observer of the `src/utils.ts` correlator sees no further
messages. -/
theorem oldStep_not_listening (id : String) (st : OldCallMachine)
    (m : ResultData) (h : st.listening = false) : oldStep id st m = st := by
  simp [oldStep, h]

/-- After deregistration, a whole sequence of further boundary messages leaves
the `src/utils.ts` pending call unchanged. -/
theorem oldFoldl_not_listening (id : String) (ms : List ResultData)
    (st : OldCallMachine) (h : st.listening = false) :
    ms.foldl (oldStep id) st = st := by
  induction ms with
  | nil => rfl
  | cons m ms ih => rw [List.foldl_cons, oldStep_not_listening id st m h]; exact ih

/-- Reduction of the `listen` handler on an accepted generic (non-internal,
non-signer) request: the response carries the original id, the outcome of
override consultation followed by target invocation, and is addressed to the
validated origin. -/
theorem handleMessage_generic (opts : ListenOpts) (cw : Nat) (origin : String)
    (d : MessageData) (id m0 n : String) (params : List Value)
    (hcw : opts.contentWindow = some cw)
    (ho : isOriginAllowed (effectiveOrigins opts.origins) origin = true)
    (hid : d.id = some id) (hm : d.method = some m0) (hp : d.params = some params)
    (hint : d.internal = false) (hst : d.signerType = none)
    (hsg : d.signType = none) (hn : stripSignerTag m0 = n) :
    handleMessage opts cw origin (.object d)
      = .responded id
          (runCatch (dispatchWithOverride opts.nonSignerOverrides n params
            (invokeTarget opts.target n params))) origin := by
  unfold handleMessage
  rw [hcw]
  simp [ho, hid, hm, hp, hn, tryBody, effectiveSignerType, hst, hsg, hint]

/-- The `listen` handler depends on the request's method name only through
`stripSignerTag`. -/
theorem handleMessage_method_congr (opts : ListenOpts) (src : Nat)
    (origin : String) (d : MessageData) (m1 m2 : String)
    (h : stripSignerTag m1 = stripSignerTag m2) :
    handleMessage opts src origin (.object { d with method := some m1 })
      = handleMessage opts src origin (.object { d with method := some m2 }) := by
  unfold handleMessage
  cases hcw : opts.contentWindow with
  | none => rfl
  | some cw =>
    by_cases hs : src ≠ cw
    · simp [hs]
    · by_cases ho : isOriginAllowed (effectiveOrigins opts.origins) origin
      · cases hid : d.id <;> cases hp : d.params <;>
          simp [hs, ho, hid, hp, h, effectiveSignerType]
      · simp [hs, ho]

/-! ## Claim theorems -/

/-- C2: constructing a Cosmiframe client from an empty list of allowed parent
origins throws a configuration error; constructing it from a list containing
the literal wildcard string `*` throws a configuration error; the distinct
`UNSAFE_ALLOW_ANY_ORIGIN` sentinel succeeds and is the only way to obtain the
allow-all entry in the stored origin list. -/
theorem constructor_origin_validation :
    (∃ e, cosmiframeInit [] = .error e)
    ∧ (∀ l, hasStarString l = true → ∃ e, cosmiframeInit l = .error e)
    ∧ cosmiframeInit [.str UNSAFE_ALLOW_ANY_ORIGIN] = .ok [.str "*"]
    ∧ (∀ l r, cosmiframeInit l = .ok r → hasStarString r = true →
        hasSentinel l = true) := by
  refine ⟨⟨_, rfl⟩, ?_, rfl, ?_⟩
  · intro l hl
    unfold cosmiframeInit
    by_cases he : l.isEmpty
    · rw [if_pos he]; exact ⟨_, rfl⟩
    · rw [if_neg he, if_pos hl]; exact ⟨_, rfl⟩
  · intro l r hok hstar
    unfold cosmiframeInit at hok
    by_cases he : l.isEmpty
    · simp [he] at hok
    · by_cases hs : hasStarString l
      · simp [he, hs] at hok
      · by_cases hsen : hasSentinel l
        · exact hsen
        · simp [he, hs, hsen] at hok
          subst hok
          exact absurd hstar (by simp [hs])

/-- C2 witness: the wildcard string is rejected at a concrete input. -/
theorem constructor_origin_validation_witness :
    ∃ e, cosmiframeInit [Origin.str "*"] = .error e :=
  constructor_origin_validation.2.1 [Origin.str "*"] (by decide)

/-- C10: in the parent-side `listen`, an undefined or empty `origins` option
defaults to the wildcard allow-list, under which every origin passes the
Origin Guard — in contrast to the iframe-side constructor, which rejects an
empty list with a configuration error. -/
theorem listen_origins_default_allow_all :
    effectiveOrigins none = [.str "*"]
    ∧ effectiveOrigins (some []) = [.str "*"]
    ∧ (∀ o, isOriginAllowed (effectiveOrigins none) o = true)
    ∧ (∀ o, isOriginAllowed (effectiveOrigins (some [])) o = true)
    ∧ (∃ e, cosmiframeInit [] = .error e) := by
  refine ⟨rfl, rfl, fun o => rfl, fun o => rfl, ⟨_, rfl⟩⟩

/-- C3: an inbound message whose source is not the iframe content window,
or whose origin the Origin Guard rejects, or which lacks any of the `id`,
`method`, `params` fields, is dropped silently: the handler emits no
response. -/
theorem listen_fail_closed_drop (opts : ListenOpts) (cw source : Nat)
    (origin : String) (data : InData)
    (hcw : opts.contentWindow = some cw)
    (h : source ≠ cw
      ∨ isOriginAllowed (effectiveOrigins opts.origins) origin = false
      ∨ badShape data = true) :
    handleMessage opts source origin data = .ignored := by
  unfold handleMessage
  rw [hcw]
  rcases h with h | h | h
  · simp [h]
  · by_cases hs : source = cw
    · simp [hs, h]
    · simp [hs]
  · by_cases hs : source = cw
    · by_cases ho : isOriginAllowed (effectiveOrigins opts.origins) origin
      · cases data with
        | nonObject => simp [hs, ho]
        | object d =>
          obtain ⟨di, dm, dp, dc, dst, dsg, dint⟩ := d
          simp only [badShape, Bool.or_eq_true, Option.isNone_iff_eq_none] at h
          cases di <;> cases dm <;> cases dp <;> simp_all [hs, ho]
      · simp [hs, ho]
    · simp [hs]

/-- C3 witness: a non-object message is dropped at a concrete input with a
mismatched source window. -/
theorem listen_fail_closed_drop_witness :
    handleMessage exOpts 1 "https://p.example" .nonObject = .ignored :=
  listen_fail_closed_drop exOpts 0 1 "https://p.example" .nonObject rfl
    (Or.inl (by decide))

/-- C4: an accepted request (right source, origin validated by the Origin
Guard, well-formed shape) yields exactly one response, carrying the original
request id and addressed specifically to the validated origin. -/
theorem listen_single_response_to_validated_origin (opts : ListenOpts)
    (cw src : Nat) (origin : String) (d : MessageData) (id m : String)
    (params : List Value)
    (hcw : opts.contentWindow = some cw) (hs : src = cw)
    (ho : isOriginAllowed (effectiveOrigins opts.origins) origin = true)
    (hid : d.id = some id) (hm : d.method = some m)
    (hp : d.params = some params) :
    ∃ msg, handleMessage opts src origin (.object d)
      = .responded id msg origin := by
  subst hs
  unfold handleMessage
  rw [hcw]
  simp [ho, hid, hm, hp]

/-- C4 witness: a concrete accepted request is answered with its id at its
origin. -/
theorem listen_single_response_witness :
    ∃ msg, handleMessage exOpts 0 "https://p.example"
      (.object (mkReq "signer:a")) = .responded "i" msg "https://p.example" :=
  listen_single_response_to_validated_origin exOpts 0 0 "https://p.example"
    (mkReq "signer:a") "i" "signer:a" [] rfl rfl (by decide) rfl rfl rfl

/-- C7: for an accepted generic request whose method has a configured override
handler, an override returning the error variant yields an error response with
its message (or the fixed default phrase when no message is given); an
override returning the call variant, or the absence of any matching override,
falls through to invocation of the real handler with the original
parameters. -/
theorem dispatcher_override_semantics (opts : ListenOpts) (cw src : Nat)
    (origin : String) (d : MessageData) (id m0 n : String) (params : List Value)
    (hcw : opts.contentWindow = some cw) (hs : src = cw)
    (ho : isOriginAllowed (effectiveOrigins opts.origins) origin = true)
    (hid : d.id = some id) (hm : d.method = some m0) (hp : d.params = some params)
    (hint : d.internal = false) (hst : d.signerType = none)
    (hsg : d.signType = none) (hn : stripSignerTag m0 = n) :
    (∀ ov f e, opts.nonSignerOverrides = some ov → ov n = some f →
      f params = .ok (some (.error (some e))) → e ≠ "" →
      handleMessage opts src origin (.object d)
        = .responded id (.error e) origin)
    ∧ (∀ ov f, opts.nonSignerOverrides = some ov → ov n = some f →
      f params = .ok (some (.error none)) →
      handleMessage opts src origin (.object d)
        = .responded id (.error "Handled by outer wallet.") origin)
    ∧ (∀ ov f, opts.nonSignerOverrides = some ov → ov n = some f →
      f params = .ok (some .call) →
      handleMessage opts src origin (.object d)
        = .responded id (runCatch (invokeTarget opts.target n params)) origin)
    ∧ (opts.nonSignerOverrides = none →
      handleMessage opts src origin (.object d)
        = .responded id (runCatch (invokeTarget opts.target n params)) origin)
    ∧ (∀ ov, opts.nonSignerOverrides = some ov → ov n = none →
      handleMessage opts src origin (.object d)
        = .responded id (runCatch (invokeTarget opts.target n params)) origin) := by
  subst hs
  have key := handleMessage_generic opts src origin d id m0 n params hcw ho hid
    hm hp hint hst hsg hn
  refine ⟨?_, ?_, ?_, ?_, ?_⟩
  · intro ov f e hov hf hres he
    rw [key, hov]
    simp [dispatchWithOverride, hf, hres, processOverrideHandler, runCatch, he,
      Bind.bind, Except.bind, pure, Except.pure]
  · intro ov f hov hf hres
    rw [key, hov]
    simp [dispatchWithOverride, hf, hres, processOverrideHandler, runCatch,
      Bind.bind, Except.bind, pure, Except.pure]
  · intro ov f hov hf hres
    rw [key, hov]
    simp [dispatchWithOverride, hf, hres, processOverrideHandler,
      Bind.bind, Except.bind, pure, Except.pure]
  · intro hov
    rw [key, hov]
    simp [dispatchWithOverride]
  · intro ov hov hovn
    rw [key, hov]
    simp [dispatchWithOverride, hovn]

/-- C7 witness: a concrete override returning the error variant with message
`boom` produces that error response. -/
theorem dispatcher_override_semantics_witness :
    handleMessage exOptsOv 0 "https://p.example" (.object (mkReq "foo"))
      = .responded "i" (.error "boom") "https://p.example" :=
  (dispatcher_override_semantics exOptsOv 0 0 "https://p.example" (mkReq "foo")
      "i" "foo" "foo" [] rfl rfl (by decide) rfl rfl rfl rfl rfl rfl
      (by decide)).1
    exOverrides exFooHandler "boom" rfl rfl rfl (by decide)

/-- C9: an accepted generic request naming a method that is not an invocable
function on the target, with no matching override, is answered with the error
message `No method '...' on target.` built from the normalized method name. -/
theorem listen_no_method_error (opts : ListenOpts) (cw src : Nat)
    (origin : String) (d : MessageData) (id m0 n : String) (params : List Value)
    (hcw : opts.contentWindow = some cw) (hs : src = cw)
    (ho : isOriginAllowed (effectiveOrigins opts.origins) origin = true)
    (hid : d.id = some id) (hm : d.method = some m0) (hp : d.params = some params)
    (hint : d.internal = false) (hst : d.signerType = none)
    (hsg : d.signType = none) (hn : stripSignerTag m0 = n)
    (hov : opts.nonSignerOverrides = none
      ∨ ∃ ov, opts.nonSignerOverrides = some ov ∧ ov n = none)
    (htg : isInvocable (opts.target n) = false) :
    handleMessage opts src origin (.object d)
      = .responded id (.error ("No method '" ++ n ++ "' on target.")) origin := by
  subst hs
  have key := handleMessage_generic opts src origin d id m0 n params hcw ho hid
    hm hp hint hst hsg hn
  rw [key]
  have htgt : invokeTarget opts.target n params
      = .error ("No method '" ++ n ++ "' on target.") := by
    unfold invokeTarget
    cases he : opts.target n with
    | none => rfl
    | some entry =>
      cases entry with
      | fn f => rw [he] at htg; simp [isInvocable] at htg
      | value v => rfl
  rcases hov with hov | ⟨ov, hov, hovn⟩
  · rw [hov]
    simp [dispatchWithOverride, htgt, runCatch]
  · rw [hov]
    simp [dispatchWithOverride, hovn, htgt, runCatch]

/-- C9 witness: the spec scenario — a generic call for `frobnicate` against a
target lacking that method yields the exact error message. -/
theorem listen_no_method_error_witness :
    handleMessage exOpts 0 "https://p.example" (.object (mkReq "frobnicate"))
      = .responded "i" (.error "No method 'frobnicate' on target.")
          "https://p.example" :=
  listen_no_method_error exOpts 0 0 "https://p.example" (mkReq "frobnicate")
    "i" "frobnicate" "frobnicate" [] rfl rfl (by decide) rfl rfl rfl rfl rfl
    rfl (by decide) (Or.inl rfl) (by decide)

/-- C8 counterexample: the claim fails when the unprefixed method name itself
begins with the legacy tag. The request for `signer:signer:a` dispatches to
method `signer:a` (present on the sample target, success), while the request
for the unprefixed name `signer:a` dispatches to method `a` (absent, error):
the two are not dispatched identically. -/
theorem legacy_tag_double_strip_cex :
    handleMessage exOpts 0 "https://p.example"
        (.object (mkReq "signer:signer:a"))
      ≠ handleMessage exOpts 0 "https://p.example"
        (.object (mkReq "signer:a")) := by
  decide

/-- C8 amended: a method name carrying the legacy `signer:` tag is dispatched
identically to the same request with the unprefixed method name, provided the
unprefixed name does not itself begin with the tag (the tag is stripped once,
not iterated); and the deprecated `signType` alias determines the signer kind
only when the canonical `signerType` field is absent. -/
theorem legacy_tag_amended (opts : ListenOpts) (src : Nat) (origin : String)
    (d : MessageData) (m : String)
    (hpre : "signer:".data.isPrefixOf m.data = false) :
    handleMessage opts src origin (.object { d with method := some ("signer:" ++ m) })
      = handleMessage opts src origin (.object { d with method := some m })
    ∧ (∀ st, d.signerType = some st → effectiveSignerType d = some st)
    ∧ (d.signerType = none → effectiveSignerType d = d.signType) := by
  have hstrip1 : stripSignerTag ("signer:" ++ m) = m := by
    unfold stripSignerTag
    rw [String.data_append]
    have hp : "signer:".data.isPrefixOf ("signer:".data ++ m.data) = true := by
      rw [List.isPrefixOf_iff_prefix]
      exact List.prefix_append _ _
    rw [if_pos hp]
    have hdrop : ("signer:".data ++ m.data).drop 7 = m.data := by
      have hlen : ("signer:".data).length = 7 := rfl
      rw [← hlen, List.drop_left]
    rw [hdrop]
  have hstrip2 : stripSignerTag m = m := by
    unfold stripSignerTag
    rw [if_neg (by simp [hpre])]
  refine ⟨?_, ?_, ?_⟩
  · exact handleMessage_method_congr opts src origin d ("signer:" ++ m) m
      (by rw [hstrip1, hstrip2])
  · intro st hst
    simp [effectiveSignerType, hst]
  · intro hst
    simp [effectiveSignerType, hst]

/-- C8 amended witness: a concrete prefixed method dispatches like its
unprefixed form. -/
theorem legacy_tag_amended_witness :
    handleMessage exOpts 0 "https://p.example"
        (.object { mkReq "x" with method := some ("signer:" ++ "a") })
      = handleMessage exOpts 0 "https://p.example"
        (.object { mkReq "x" with method := some "a" }) :=
  (legacy_tag_amended exOpts 0 "https://p.example" (mkReq "x") "a"
    (by decide)).1

/-- C1: the observer registered by `callParentMethod` ignores any boundary
message that is not accepted (so a non-accepted message settles nothing and
leaves the observer registered), and a message whose correlation id matches
the call's id but whose source is not the parent window, or whose origin is
not in the allow-list, is not accepted. -/
theorem correlator_ignores_unmatched (id : String) (allowed : List Origin)
    (parent : Nat) (m : InboundMsg) :
    (listenerAccepts id allowed parent m = false →
      ∀ st, newStep id allowed parent st m = st)
    ∧ (m.data.id = id →
      m.source ≠ parent ∨ isOriginAllowed allowed m.origin = false →
      newStep id allowed parent { listening := true, state := .pending } m
        = { listening := true, state := .pending }) := by
  constructor
  · intro h st
    simp [newStep, h]
  · intro hid hcase
    have hacc : listenerAccepts id allowed parent m = false := by
      rcases hcase with h | h
      · simp [listenerAccepts, h]
      · simp [listenerAccepts, h]
    simp [newStep, hacc]

/-- C1 witness: a success response for the right id, but sent from window `1`
instead of the parent window `0`, settles nothing. -/
theorem correlator_ignores_unmatched_witness :
    newStep "i" [Origin.str "https://p.example"] 0
      { listening := true, state := .pending } exWrongSourceMsg
      = { listening := true, state := .pending } :=
  (correlator_ignores_unmatched "i" [Origin.str "https://p.example"] 0
    exWrongSourceMsg).2 rfl (Or.inl (by decide))

/-- C5: for a pending call of the `src/utils.ts` `callParentMethod`, the first
message whose id matches settles the call and deregisters the observer before
settling, so every later message — in particular one carrying the same id —
settles nothing: at most one response is consumed over the call's lifetime. -/
theorem old_correlator_first_match_wins (id : String)
    (pre post : List ResultData) (m : ResultData)
    (hpre : ∀ m' ∈ pre, m'.id ≠ id) (hm : m.id = id) :
    oldRun id (pre ++ m :: post)
      = { listening := false, state := oldSettle m } := by
  unfold oldRun
  induction pre with
  | nil =>
    rw [List.nil_append, List.foldl_cons]
    have hstep : oldStep id { listening := true, state := .pending } m
        = { listening := false, state := oldSettle m } := by
      simp [oldStep, hm]
    rw [hstep]
    exact oldFoldl_not_listening id post _ rfl
  | cons p ps ih =>
    have hp : p.id ≠ id := hpre p (List.mem_cons_self p ps)
    have hstep : oldStep id { listening := true, state := .pending } p
        = { listening := true, state := .pending } := by
      simp [oldStep, hp]
    rw [List.cons_append, List.foldl_cons, hstep]
    exact ih fun m' hm' => hpre m' (List.mem_cons_of_mem _ hm')

/-- C5 witness: a non-matching message, then a matching success response, then
a late message reusing the same id — the call resolves with the first match's
value and the late duplicate is inert. -/
theorem old_correlator_first_match_wins_witness :
    oldRun "i" [exM0, exM1, exM2]
      = { listening := false, state := .resolved (.str "v") } :=
  old_correlator_first_match_wins "i" [exM0] [exM2] exM1 (by decide) rfl

/-- C6: an accepted success response resolves the pending call with exactly
that response's value together with the responding origin; an accepted error
response rejects it with the response's error string; and a transmission
failure at send time immediately rejects the call with the observer
deregistered. -/
theorem correlator_settlement (id : String) (allowed : List Origin)
    (parent : Nat) (m : InboundMsg)
    (hacc : listenerAccepts id allowed parent m = true) :
    (m.data.type = "success" →
      newStep id allowed parent { listening := true, state := .pending } m
        = { listening := false,
            state := .resolved m.data.response m.origin })
    ∧ (m.data.type = "error" →
      newStep id allowed parent { listening := true, state := .pending } m
        = { listening := false, state := .rejected m.data.error })
    ∧ (∀ e, sendPhase (.error e)
        = { listening := false, state := .rejected e }) := by
  refine ⟨?_, ?_, fun e => rfl⟩
  · intro h
    simp [newStep, hacc, newSettle, h]
  · intro h
    simp [newStep, hacc, newSettle, h]

/-- C6 witness: a concrete accepted success response resolves with its value
and the observed origin. -/
theorem correlator_settlement_witness :
    newStep "i" [Origin.str "https://p.example"] 0
      { listening := true, state := .pending } exGoodMsg
      = { listening := false,
          state := .resolved (.str "v") "https://p.example" } :=
  (correlator_settlement "i" [Origin.str "https://p.example"] 0 exGoodMsg
    (by decide)).1 rfl

end Cosmiframe
